import Mathlib

/-!
Verification of the NPM Meta management tool (`app.py`): a shallow embedding
of its SQLite-backed store, the health prober, the foreground API handlers
and the background health-check daemon, with theorems about the behaviours
the specification describes.

Conventions of the embedding:
* SQL values that may be NULL are `Option`; Python string truthiness
  (`x or default`, which treats both `None` and `""` as falsy) is `pyOr`.
* Network effects (the NPM remote API, HTTP probes, TCP connects) are inputs:
  each handler takes the outcome of its remote calls as an argument, so a
  handler is a pure function of the request, the remote world and the store.
* Timestamps (`time.time()`) are a `Nat` supplied by the caller.
-/

/-- One row of the `streams` table.  Schema (from `init_db`):
`npm_id INTEGER PRIMARY KEY, memo TEXT, doc_url TEXT, test_url TEXT,
repo_url TEXT, health_status TEXT DEFAULT 'unknown',
health_msg TEXT DEFAULT 'Pending...', health_last_check REAL`. -/
structure Row where
  memo : Option String
  doc_url : Option String
  test_url : Option String
  repo_url : Option String
  health_status : Option String
  health_msg : Option String
  health_last_check : Option Nat
deriving DecidableEq, Repr

/-- The durable store: partial map from `npm_id` to its row. -/
def DB : Type := Nat → Option Row

/-- Point update of the store (the effect of an SQL INSERT/REPLACE on one key). -/
def dbInsert (db : DB) (id : Nat) (r : Row) : DB :=
  fun j => if j = id then some r else db j

/-- The row produced by `INSERT OR IGNORE INTO streams (npm_id) VALUES (?)`:
every other column takes its schema default (`NULL` for the memo/URL columns
and `health_last_check`, `'unknown'` / `'Pending...'` for the health columns). -/
def blankRow : Row :=
  ⟨none, none, none, none, some "unknown", some "Pending...", none⟩

/-- `save_memo`: `INSERT OR REPLACE INTO streams (npm_id, memo, doc_url,
test_url, repo_url) VALUES (?,?,?,?,?)`.  REPLACE deletes any existing row and
inserts a fresh one, so the three health columns fall back to their schema
defaults. -/
def save_memo (db : DB) (npm_id : Nat) (memo doc_url test_url repo_url : String) : DB :=
  dbInsert db npm_id
    ⟨some memo, some doc_url, some test_url, some repo_url,
     some "unknown", some "Pending...", none⟩

/-- `save_health_status`: `INSERT OR IGNORE` the key, then `UPDATE` only the
three health columns of that row. -/
def save_health_status (db : DB) (npm_id : Nat) (status msg : String) (now : Nat) : DB :=
  let base := (db npm_id).getD blankRow
  dbInsert db npm_id
    { base with health_status := some status, health_msg := some msg,
                health_last_check := some now }

/-- `delete_memo`: `DELETE FROM streams WHERE npm_id = ?` — the whole row goes. -/
def delete_memo (db : DB) (npm_id : Nat) : DB :=
  fun j => if j = npm_id then none else db j

/-- Python `x or default` on a nullable string: `None` and `""` are falsy. -/
def pyOr (o : Option String) (d : String) : String :=
  match o with
  | some s => if s = "" then d else s
  | none => d

/-- What `get_health_status` returns: a status, a message and an optional
last-check timestamp. -/
structure HealthView where
  status : String
  msg : String
  last_check : Option Nat
deriving DecidableEq, Repr

/-- `get_health_status`: read the three health columns; a missing row yields
the defaults, and a NULL or empty stored value is coerced by Python `or`. -/
def get_health_status (db : DB) (npm_id : Nat) : HealthView :=
  match db npm_id with
  | some r => ⟨pyOr r.health_status "unknown", pyOr r.health_msg "Pending...", r.health_last_check⟩
  | none => ⟨"unknown", "Pending...", none⟩

/-- `get_all_memos` restricted to one key: the dictionary it builds maps each
stored `npm_id` to the four memo/URL column values (which may be NULL). -/
def get_all_memos (db : DB) (npm_id : Nat) :
    Option (Option String × Option String × Option String × Option String) :=
  (db npm_id).map fun r => (r.memo, r.doc_url, r.test_url, r.repo_url)

/-- A rule as returned by the NPM `/nginx/streams` endpoint (the fields the
application reads). -/
structure NpmStream where
  id : Nat
  incoming_port : Nat
  forwarding_host : String
  forwarding_port : Nat
deriving DecidableEq, Repr

/-! ## The connectivity prober -/

/-- Outcome of the HTTP GET to `http://host:port/health`: either the request
raised (timeout, refused connection, unresolvable host, bad port string), or a
response arrived with some status code and a body.  The body is summarised by
`Option (Option String)`: `none` = does not parse as JSON, `some none` =
parses but has no `status` field, `some (some v)` = has `status` field `v`. -/
inductive HttpStep where
  | exc
  | resp (status : Nat) (jsonStatus : Option (Option String))
deriving DecidableEq, Repr

/-- Outcome of the raw TCP step: `connect_ex` returned an error code (0 means
connected), or something in the socket block raised (e.g. a non-numeric port
string passed to `int`). -/
inductive TcpStep where
  | code (result : Nat)
  | exc (e : String)
deriving DecidableEq, Repr

/-- A prober result: the dict `{"status": ..., "msg": ...}`. -/
structure HealthResult where
  status : String
  msg : String
deriving DecidableEq, Repr

/-- The TCP half of `check_stream_connectivity`. -/
def tcpFallback : TcpStep → HealthResult
  | .code r => if r = 0 then ⟨"ok", "TCP connect success"⟩
               else ⟨"error", "TCP error code: " ++ toString r⟩
  | .exc e => ⟨"error", "Check error: " ++ e⟩

/-- `check_stream_connectivity`: try `GET /health` first; any 200 response is
`ok` (with the better message when the body carries `status: ok`); anything
else — non-200 status or an exception — falls through to the TCP connect. -/
def check_stream_connectivity (http : HttpStep) (tcp : TcpStep) : HealthResult :=
  match http with
  | .resp st js =>
      if st = 200 then
        if js = some (some "ok") then ⟨"ok", "Health check ok"⟩
        else ⟨"ok", "HTTP " ++ toString st⟩
      else tcpFallback tcp
  | .exc => tcpFallback tcp

/-- `True` exactly when the HTTP step alone settles the probe (a 200 response). -/
def httpYieldsOk : HttpStep → Bool
  | .resp 200 _ => true
  | _ => false

/-! ## Foreground API handlers -/

/-- The JSON/HTTP responses the handlers produce, tagged by HTTP status:
200 success, 400, 409 conflict, 500. -/
inductive ApiResp where
  | success (msg : String)
  | badRequest (msg : String)
  | conflict (msg : String)
  | serverError (msg : String)
deriving DecidableEq, Repr

/-- The request body of a create/update call, after JSON extraction and `int`
conversion of the two ports (a missing field arrives as `0` / `""`, which the
Python truthiness check rejects). -/
structure StreamForm where
  incoming_port : Nat
  forward_ip : String
  forward_port : Nat
  memo : String
  doc_url : String
  test_url : String
  repo_url : String
deriving DecidableEq, Repr

/-- Result of a create/update handler: the response, whether the remote
NPM create/update call was actually issued, and the store afterwards. -/
structure CreateOutcome where
  resp : ApiResp
  remoteCalled : Bool
  db : DB

/-- `api_create_stream`.  Arguments beyond the form: the outcome of
`npm_get_streams` (used by the port-conflict guard; a failed fetch skips the
guard) and the outcome of `npm_create_stream` (consulted only if actually
called). -/
def api_create_stream (form : StreamForm)
    (fetch : Except String (List NpmStream))
    (create : Except String NpmStream) (db : DB) : CreateOutcome :=
  if form.incoming_port = 0 ∨ form.forward_ip = "" ∨ form.forward_port = 0 then
    ⟨.badRequest "参数不完整", false, db⟩
  else if ¬(1 ≤ form.incoming_port ∧ form.incoming_port ≤ 65535) ∨
          ¬(1 ≤ form.forward_port ∧ form.forward_port ≤ 65535) then
    ⟨.badRequest "端口号必须在 1-65535 之间", false, db⟩
  else
    let conflictHit : Option NpmStream :=
      match fetch with
      | .ok streams => streams.find? fun s => s.incoming_port == form.incoming_port
      | .error _ => none
    match conflictHit with
    | some s =>
        ⟨.conflict ("入站端口 " ++ toString form.incoming_port ++ " 已被占用（ID: "
            ++ toString s.id ++ "），请使用其他端口"), false, db⟩
    | none =>
        match create with
        | .ok created =>
            ⟨.success "创建成功", true,
             save_memo db created.id form.memo form.doc_url form.test_url form.repo_url⟩
        | .error e => ⟨.serverError e, true, db⟩

/-- `api_update_stream` for rule `stream_id`: same shape as create, but the
conflict guard excludes the rule being updated (`stream['id'] != stream_id`). -/
def api_update_stream (stream_id : Nat) (form : StreamForm)
    (fetch : Except String (List NpmStream))
    (update : Except String NpmStream) (db : DB) : CreateOutcome :=
  if form.incoming_port = 0 ∨ form.forward_ip = "" ∨ form.forward_port = 0 then
    ⟨.badRequest "参数不完整", false, db⟩
  else if ¬(1 ≤ form.incoming_port ∧ form.incoming_port ≤ 65535) ∨
          ¬(1 ≤ form.forward_port ∧ form.forward_port ≤ 65535) then
    ⟨.badRequest "端口号必须在 1-65535 之间", false, db⟩
  else
    let conflictHit : Option NpmStream :=
      match fetch with
      | .ok streams =>
          streams.find? fun s => s.incoming_port == form.incoming_port && s.id != stream_id
      | .error _ => none
    match conflictHit with
    | some s =>
        ⟨.conflict ("入站端口 " ++ toString form.incoming_port ++ " 已被其他规则占用（ID: "
            ++ toString s.id ++ "）"), false, db⟩
    | none =>
        match update with
        | .ok _ =>
            ⟨.success "更新成功", true,
             save_memo db stream_id form.memo form.doc_url form.test_url form.repo_url⟩
        | .error e => ⟨.serverError e, true, db⟩

/-- `api_delete_stream`: remote delete first (its outcome is the argument);
only on success is the local row dropped. -/
def api_delete_stream (deleteRes : Except String Unit) (db : DB) (stream_id : Nat) :
    ApiResp × DB :=
  match deleteRes with
  | .ok _ => (.success "删除成功", delete_memo db stream_id)
  | .error e => (.serverError e, db)

/-- One element of the merged list `api_get_streams` returns: the NPM rule
fields plus memo/URL values (a value can be JSON null when the stored column
is NULL) plus the health fields read from the store. -/
structure MergedStream where
  id : Nat
  incoming_port : Nat
  forwarding_host : String
  forwarding_port : Nat
  memo : Option String
  doc_url : Option String
  test_url : Option String
  repo_url : Option String
  health_status : String
  health_msg : String
deriving DecidableEq, Repr

/-- The per-rule merge in `api_get_streams`: `memos.get(id, {})` then
`.get(field, '')` — a missing row defaults every memo/URL field to `""`,
while an existing row contributes its stored (possibly NULL) values; the
health fields come from `get_health_status`. -/
def mergeOne (db : DB) (st : NpmStream) : MergedStream :=
  let md := get_all_memos db st.id
  let health := get_health_status db st.id
  { id := st.id
    incoming_port := st.incoming_port
    forwarding_host := st.forwarding_host
    forwarding_port := st.forwarding_port
    memo := match md with | some t => t.1 | none => some ""
    doc_url := match md with | some t => t.2.1 | none => some ""
    test_url := match md with | some t => t.2.2.1 | none => some ""
    repo_url := match md with | some t => t.2.2.2 | none => some ""
    health_status := health.status
    health_msg := health.msg }

/-- Result of `api_get_streams`: the response and the `CACHED_STREAMS`
snapshot afterwards. -/
structure GetStreamsOutcome where
  resp : Except String (List MergedStream)
  cached : Option (List NpmStream)

/-- `api_get_streams`: on fetch failure return the error (HTTP 500) and leave
the cache alone; on success set `CACHED_STREAMS` to the fetched list, then
merge memos and health into each rule. -/
def api_get_streams (fetch : Except String (List NpmStream)) (db : DB)
    (cached : Option (List NpmStream)) : GetStreamsOutcome :=
  match fetch with
  | .error e => ⟨.error e, cached⟩
  | .ok data => ⟨.ok (data.map (mergeOne db)), some data⟩

/-! ## The health-check daemon -/

/-- In-memory entry of `STREAM_HEALTH_STATUS`. -/
structure MemEntry where
  status : String
  msg : String
  last_check : Nat
deriving DecidableEq, Repr

/-- The daemon-visible mutable state: the durable store and the in-memory
health cache. -/
structure DaemonState where
  db : DB
  mem : Nat → Option MemEntry

/-- The external world of one probe cycle: the outcome of `npm_get_streams`
with the background token, the per-(host, port) probe outcomes, fault
injection for the persistence step (`saveFault i = some e` means the save for
the i-th listed rule raises `e`, as a SQLite write can), and the clock. -/
structure CycleWorld where
  fetchRes : Except String (List NpmStream)
  http : String → Nat → HttpStep
  tcp : String → Nat → TcpStep
  saveFault : Nat → Option String
  now : Nat

/-- Either the cycle body ran to completion (with the probe count and whether
it bailed out for lack of data) or an exception escaped the body, carrying the
state at the moment it was raised. -/
inductive CycleOutcome where
  | done (s : DaemonState) (checked : Nat) (noData : Bool)
  | raised (s : DaemonState) (msg : String)

/-- The per-rule loop of `run_health_check`: skip rules with a falsy host or
port, otherwise probe, persist and update the in-memory cache, counting the
rules actually checked. -/
def checkStreamsLoop (w : CycleWorld) :
    List NpmStream → Nat → Nat → DaemonState → CycleOutcome
  | [], _, checked, s => .done s checked false
  | st :: rest, idx, checked, s =>
      if st.forwarding_host ≠ "" ∧ st.forwarding_port ≠ 0 then
        match w.saveFault idx with
        | some m => .raised s m
        | none =>
            let res := check_stream_connectivity
                (w.http st.forwarding_host st.forwarding_port)
                (w.tcp st.forwarding_host st.forwarding_port)
            checkStreamsLoop w rest (idx + 1) (checked + 1)
              ⟨save_health_status s.db st.id res.status res.msg w.now,
               fun j => if j = st.id then some ⟨res.status, res.msg, w.now⟩ else s.mem j⟩
      else checkStreamsLoop w rest (idx + 1) checked s

/-- The body of `run_health_check` (the code inside its `try`): pick the rule
set — fetched with the background token when one is held, else the
`CACHED_STREAMS` snapshot, else nothing — and if it is empty log "no data" and
return, otherwise run the per-rule loop. -/
def run_health_check_body (bgToken : Option String)
    (cached : Option (List NpmStream)) (w : CycleWorld) (s : DaemonState) : CycleOutcome :=
  let streams_to_check : List NpmStream :=
    match bgToken with
    | some _ => match w.fetchRes with | .ok l => l | .error _ => []
    | none => match cached with | some l => l | none => []
  if streams_to_check.isEmpty then .done s 0 true
  else checkStreamsLoop w streams_to_check 0 0 s

/-- What one call to `run_health_check` leaves behind: the state, how many
rules were probed, whether the "no data available" branch was taken, and the
logged exception if the body raised. -/
structure RunResult where
  state : DaemonState
  checked : Nat
  noData : Bool
  errorLogged : Option String

/-- `run_health_check`: the whole body sits in `try/except`, so an exception
anywhere inside is caught and logged and the call returns normally. -/
def run_health_check (bgToken : Option String) (cached : Option (List NpmStream))
    (w : CycleWorld) (s : DaemonState) : RunResult :=
  match run_health_check_body bgToken cached w s with
  | .done s' c nd => ⟨s', c, nd, none⟩
  | .raised s' m => ⟨s', 0, false, some m⟩

/-- `health_check_daemon`'s loop, cycle by cycle: state after `n` completed
probe cycles, where each cycle reads the then-current `CACHED_STREAMS`
snapshot and its own slice of the external world. -/
def health_check_daemon (bgToken : Option String)
    (cacheds : Nat → Option (List NpmStream)) (worlds : Nat → CycleWorld)
    (s0 : DaemonState) : Nat → DaemonState
  | 0 => s0
  | n + 1 =>
      (run_health_check bgToken (cacheds n) (worlds n)
        (health_check_daemon bgToken cacheds worlds s0 n)).state

/-! ## Reachable stores -/

/-- The stores reachable through the application's write operations: the empty
database, annotation saves, probe-result saves (whose status/message come from
the prober) and row deletes. -/
inductive Reachable : DB → Prop where
  | init : Reachable (fun _ => none)
  | memo (db : DB) (id : Nat) (m d t r : String) :
      Reachable db → Reachable (save_memo db id m d t r)
  | probe (db : DB) (id : Nat) (http : HttpStep) (tcp : TcpStep) (now : Nat) :
      Reachable db →
      Reachable (save_health_status db id (check_stream_connectivity http tcp).status
        (check_stream_connectivity http tcp).msg now)
  | del (db : DB) (id : Nat) : Reachable db → Reachable (delete_memo db id)

/-! ## Helper lemmas -/

/-- Every probe result carries status `"ok"` or `"error"`. -/
theorem check_status_cases (http : HttpStep) (tcp : TcpStep) :
    (check_stream_connectivity http tcp).status = "ok" ∨
    (check_stream_connectivity http tcp).status = "error" := by
  have htcp : ∀ t : TcpStep, (tcpFallback t).status = "ok" ∨ (tcpFallback t).status = "error" := by
    intro t
    cases t with
    | code r =>
        by_cases hr : r = 0 <;> simp [tcpFallback, hr]
    | exc e => simp [tcpFallback]
  cases http with
  | exc => exact htcp tcp
  | resp st js =>
      by_cases hst : st = 200
      · subst hst
        by_cases hj : js = some (some "ok") <;> simp [check_stream_connectivity, hj]
      · simpa [check_stream_connectivity, hst] using htcp tcp

/-- When the HTTP step does not settle the probe, the prober's answer is the
TCP fallback's answer. -/
theorem check_of_http_not_ok (http : HttpStep) (tcp : TcpStep)
    (h : httpYieldsOk http = false) :
    check_stream_connectivity http tcp = tcpFallback tcp := by
  cases http with
  | exc => rfl
  | resp st js =>
      have hst : st ≠ 200 := by
        intro he
        subst he
        simp [httpYieldsOk] at h
      simp [check_stream_connectivity, hst]

/-! ## Claim theorems -/

/-- C3: the prober is two-tier and short-circuits: a 200 response whose body
carries `status: ok` yields `ok`/"Health check ok"; any other 200 response
yields `ok`/"HTTP 200"; when the HTTP step does not settle the probe, a
successful TCP connect yields `ok`/"TCP connect success", a nonzero connect
code yields `error` with the code in the message, and a raised exception
yields `error` with the exception text in the message. -/
theorem C3_two_tier_prober :
    (∀ tcp : TcpStep,
      check_stream_connectivity (.resp 200 (some (some "ok"))) tcp =
        ⟨"ok", "Health check ok"⟩)
    ∧ (∀ (tcp : TcpStep) (js : Option (Option String)), js ≠ some (some "ok") →
        check_stream_connectivity (.resp 200 js) tcp = ⟨"ok", "HTTP 200"⟩)
    ∧ (∀ http : HttpStep, httpYieldsOk http = false →
        check_stream_connectivity http (.code 0) = ⟨"ok", "TCP connect success"⟩)
    ∧ (∀ (http : HttpStep) (r : Nat), httpYieldsOk http = false → r ≠ 0 →
        check_stream_connectivity http (.code r) =
          ⟨"error", "TCP error code: " ++ toString r⟩)
    ∧ (∀ (http : HttpStep) (e : String), httpYieldsOk http = false →
        check_stream_connectivity http (.exc e) =
          ⟨"error", "Check error: " ++ e⟩) := by
  refine ⟨?_, ?_, ?_, ?_, ?_⟩
  · intro tcp
    rfl
  · intro tcp js hj
    simp only [check_stream_connectivity, if_pos rfl, if_neg hj]
    rfl
  · intro http h
    rw [check_of_http_not_ok http _ h]
    rfl
  · intro http r h hr
    rw [check_of_http_not_ok http _ h]
    simp [tcpFallback, hr]
  · intro http e h
    rw [check_of_http_not_ok http _ h]
    rfl

/-- Witness for C3: each tier evaluated at a concrete probe world. -/
theorem C3_two_tier_prober_witness :
    check_stream_connectivity (.resp 200 (some (some "ok"))) (.code 3) =
      ⟨"ok", "Health check ok"⟩
    ∧ check_stream_connectivity (.resp 200 none) (.code 3) = ⟨"ok", "HTTP 200"⟩
    ∧ check_stream_connectivity .exc (.code 0) = ⟨"ok", "TCP connect success"⟩
    ∧ check_stream_connectivity (.resp 500 none) (.code 111) =
        ⟨"error", "TCP error code: " ++ toString 111⟩
    ∧ check_stream_connectivity .exc (.exc "timed out") =
        ⟨"error", "Check error: " ++ "timed out"⟩ :=
  ⟨C3_two_tier_prober.1 (.code 3),
   C3_two_tier_prober.2.1 (.code 3) none (by decide),
   C3_two_tier_prober.2.2.1 .exc rfl,
   C3_two_tier_prober.2.2.2.1 (.resp 500 none) 111 rfl (by decide),
   C3_two_tier_prober.2.2.2.2 .exc "timed out" rfl⟩

/-- C4: for every probe world the prober returns a result whose status is
`ok` or `error` — never `unknown` — and (being a total function of the two
step outcomes, which include the exception cases) it never propagates an
exception. -/
theorem C4_prober_never_unknown :
    ∀ (http : HttpStep) (tcp : TcpStep),
      ((check_stream_connectivity http tcp).status = "ok" ∨
       (check_stream_connectivity http tcp).status = "error")
      ∧ (check_stream_connectivity http tcp).status ≠ "unknown" := by
  intro http tcp
  rcases check_status_cases http tcp with h | h <;> simp [h]

/-- C6: with no service token and no cached rule list, a probe cycle probes
nothing, leaves the store and the in-memory cache exactly as they were, takes
the "no data available" branch, and returns without a logged error. -/
theorem C6_no_token_no_cache_skips :
    ∀ (w : CycleWorld) (s : DaemonState),
      run_health_check none none w s = ⟨s, 0, true, none⟩ := by
  intro w s
  rfl

/-- C7: a successful foreground list call sets the daemon's fallback snapshot
to exactly the freshly fetched list (and answers with the merged list); a
failed fetch answers with the error and leaves the snapshot untouched. -/
theorem C7_cache_snapshot :
    (∀ (db : DB) (data : List NpmStream) (cached : Option (List NpmStream)),
       api_get_streams (.ok data) db cached = ⟨.ok (data.map (mergeOne db)), some data⟩)
    ∧ (∀ (db : DB) (e : String) (cached : Option (List NpmStream)),
       api_get_streams (.error e) db cached = ⟨.error e, cached⟩) :=
  ⟨fun _ _ _ => rfl, fun _ _ _ => rfl⟩

/-- C8: a probe cycle is total with respect to exceptions — whenever the cycle
body raises, `run_health_check` returns normally with the exception caught and
logged — and the daemon loop always runs the next cycle on the state the
previous cycles left. -/
theorem C8_cycle_catches_and_loops :
    (∀ (tok : Option String) (cached : Option (List NpmStream)) (w : CycleWorld)
       (s s' : DaemonState) (m : String),
       run_health_check_body tok cached w s = .raised s' m →
       run_health_check tok cached w s = ⟨s', 0, false, some m⟩)
    ∧ (∀ (tok : Option String) (cacheds : Nat → Option (List NpmStream))
         (worlds : Nat → CycleWorld) (s0 : DaemonState) (n : Nat),
       health_check_daemon tok cacheds worlds s0 (n + 1) =
         (run_health_check tok (cacheds n) (worlds n)
           (health_check_daemon tok cacheds worlds s0 n)).state) := by
  constructor
  · intro tok cached w s s' m h
    simp [run_health_check, h]
  · intro tok cacheds worlds s0 n
    rfl

/-- A rule whose save step will fault, and a world injecting that fault. -/
def streamA : NpmStream := ⟨7, 8080, "10.0.0.5", 22⟩

/-- A cycle world where persisting the first probed rule raises. -/
def faultWorld : CycleWorld :=
  ⟨.ok [streamA], fun _ _ => .exc, fun _ _ => .code 0, fun _ => some "disk full", 5⟩

/-- The empty daemon state. -/
def emptyState : DaemonState := ⟨fun _ => none, fun _ => none⟩

/-- Witness for C8: a cycle whose persistence step raises is caught and
logged, and the call returns normally. -/
theorem C8_cycle_catches_and_loops_witness :
    run_health_check_body (some "tok") none faultWorld emptyState =
      .raised emptyState "disk full"
    ∧ run_health_check (some "tok") none faultWorld emptyState =
        ⟨emptyState, 0, false, some "disk full"⟩ :=
  ⟨rfl, C8_cycle_catches_and_loops.1 (some "tok") none faultWorld emptyState
    emptyState "disk full" rfl⟩

/-- A row as a probe cycle leaves it: memo saved earlier, probe data present. -/
def probedRow : Row :=
  ⟨some "db server", some "", some "", some "", some "ok",
   some "TCP connect success", some 42⟩

/-- A store holding such a row for rule 1. -/
def dbProbed : DB := fun j => if j = 1 then some probedRow else none

/-- C1 counterexample: rule 1 has a probed HealthRecord (`ok`,
"TCP connect success", t = 42); after a successful foreground delete the whole
row is gone, so the health data read back differs from what was stored — the
HealthRecord is NOT left in place in the durable store. -/
theorem C1_counterexample :
    get_health_status dbProbed 1 = ⟨"ok", "TCP connect success", some 42⟩
    ∧ (api_delete_stream (.ok ()) dbProbed 1).2 1 = none
    ∧ get_health_status ((api_delete_stream (.ok ()) dbProbed 1).2) 1 ≠
        get_health_status dbProbed 1 := by
  refine ⟨?_, ?_, ?_⟩ <;> decide

/-- C1 (amended): a successful foreground delete removes the entire stored row
for the identifier — the memo/URL fields AND the HealthRecord — after which
the health read yields the defaults (`unknown`, "Pending...", no timestamp);
rows of other identifiers are untouched, and a failed remote delete leaves the
store unchanged. -/
theorem C1_delete_drops_row :
    ∀ (db : DB) (sid : Nat),
      (api_delete_stream (.ok ()) db sid).1 = .success "删除成功"
      ∧ (api_delete_stream (.ok ()) db sid).2 sid = none
      ∧ get_health_status (api_delete_stream (.ok ()) db sid).2 sid =
          ⟨"unknown", "Pending...", none⟩
      ∧ (∀ j, j ≠ sid → (api_delete_stream (.ok ()) db sid).2 j = db j)
      ∧ (∀ e, api_delete_stream (.error e) db sid = (.serverError e, db)) := by
  intro db sid
  refine ⟨rfl, ?_, ?_, ?_, fun e => rfl⟩
  · simp [api_delete_stream, delete_memo]
  · simp [api_delete_stream, get_health_status, delete_memo]
  · intro j hj
    simp [api_delete_stream, delete_memo, hj]

/-- Witness for the amended C1 at a concrete store. -/
theorem C1_delete_drops_row_witness :
    (api_delete_stream (.ok ()) dbProbed 1).2 2 = dbProbed 2
    ∧ get_health_status (api_delete_stream (.ok ()) dbProbed 1).2 1 =
        ⟨"unknown", "Pending...", none⟩ :=
  ⟨(C1_delete_drops_row dbProbed 1).2.2.2.1 2 (by decide),
   (C1_delete_drops_row dbProbed 1).2.2.1⟩

/-- C10: `save_memo` (run on every foreground create/update) replaces the
whole row, so afterwards the health columns hold the schema defaults whatever
was there before; `save_health_status` updates only the three health columns,
keeping the memo/URL columns of an existing row and creating a row with NULL
memo/URL columns otherwise; both touch no other identifier. -/
theorem C10_save_semantics :
    (∀ (db : DB) (id : Nat) (m d t r : String),
       save_memo db id m d t r id =
         some ⟨some m, some d, some t, some r, some "unknown", some "Pending...", none⟩
       ∧ ∀ j, j ≠ id → save_memo db id m d t r j = db j)
    ∧ (∀ (db : DB) (id : Nat) (st ms : String) (now : Nat),
       (∀ row, db id = some row →
          save_health_status db id st ms now id =
            some ⟨row.memo, row.doc_url, row.test_url, row.repo_url,
                  some st, some ms, some now⟩)
       ∧ (db id = none →
          save_health_status db id st ms now id =
            some ⟨none, none, none, none, some st, some ms, some now⟩)
       ∧ ∀ j, j ≠ id → save_health_status db id st ms now j = db j) := by
  constructor
  · intro db id m d t r
    constructor
    · simp [save_memo, dbInsert]
    · intro j hj
      simp [save_memo, dbInsert, hj]
  · intro db id st ms now
    refine ⟨?_, ?_, ?_⟩
    · intro row hrow
      cases row with
      | mk a b c d e f g => simp [save_health_status, dbInsert, hrow]
    · intro hnone
      simp [save_health_status, dbInsert, hnone, blankRow]
    · intro j hj
      simp [save_health_status, dbInsert, hj]

/-- Witness for C10 at concrete stores: an annotated, probed row is fully
replaced by `save_memo` (health back to defaults), `save_health_status` keeps
the memo/URL columns of an existing row and creates a blank-memo row when none
exists, and neighbours are untouched. -/
theorem C10_save_semantics_witness :
    save_memo dbProbed 1 "new" "a" "b" "c" 1 =
      some ⟨some "new", some "a", some "b", some "c",
            some "unknown", some "Pending...", none⟩
    ∧ save_memo dbProbed 1 "new" "a" "b" "c" 2 = dbProbed 2
    ∧ save_health_status dbProbed 1 "error" "down" 99 1 =
        some ⟨probedRow.memo, probedRow.doc_url, probedRow.test_url,
              probedRow.repo_url, some "error", some "down", some 99⟩
    ∧ save_health_status dbProbed 5 "ok" "up" 99 5 =
        some ⟨none, none, none, none, some "ok", some "up", some 99⟩ :=
  ⟨(C10_save_semantics.1 dbProbed 1 "new" "a" "b" "c").1,
   (C10_save_semantics.1 dbProbed 1 "new" "a" "b" "c").2 2 (by decide),
   ((C10_save_semantics.2 dbProbed 1 "error" "down" 99).1 probedRow (by decide)),
   ((C10_save_semantics.2 dbProbed 5 "ok" "up" 99).2.1 (by decide))⟩

/-- C5: the merged list contains one entry per fetched rule, carrying the
rule's own fields; an identifier with no stored row gets every memo/URL field
defaulted to `""` and health defaulted to `unknown`/"Pending..."; an
identifier whose row still holds the schema-default health values (saved but
never probed) also reads back `unknown`/"Pending..."; the merge is a total
function, so missing records never make it fail. -/
theorem C5_merge_defaults :
    (∀ (db : DB) (data : List NpmStream) (cached : Option (List NpmStream)),
       (api_get_streams (.ok data) db cached).resp = .ok (data.map (mergeOne db)))
    ∧ (∀ (db : DB) (st : NpmStream), db st.id = none →
       mergeOne db st =
         ⟨st.id, st.incoming_port, st.forwarding_host, st.forwarding_port,
          some "", some "", some "", some "", "unknown", "Pending..."⟩)
    ∧ (∀ (db : DB) (st : NpmStream) (row : Row), db st.id = some row →
       row.health_status = some "unknown" → row.health_msg = some "Pending..." →
       (mergeOne db st).health_status = "unknown"
       ∧ (mergeOne db st).health_msg = "Pending...") := by
  refine ⟨fun _ _ _ => rfl, ?_, ?_⟩
  · intro db st h
    simp [mergeOne, get_all_memos, get_health_status, h]
  · intro db st row h h1 h2
    simp only [mergeOne, get_health_status, h, h1, h2]
    exact ⟨by decide, by decide⟩

/-- A rule whose identifier has no stored row in `dbProbed`. -/
def streamB : NpmStream := ⟨3, 9000, "192.168.1.2", 3306⟩

/-- A store where rule 3 was annotated but never probed. -/
def dbMemoOnly : DB := save_memo (fun _ => none) 3 "svc" "" "" ""

/-- Witness for C5: merging a rule with no stored row yields the documented
defaults, and a saved-but-never-probed row reads back `unknown`/"Pending...". -/
theorem C5_merge_defaults_witness :
    (api_get_streams (.ok [streamB]) dbProbed none).resp =
      .ok [mergeOne dbProbed streamB]
    ∧ mergeOne dbProbed streamB =
        ⟨3, 9000, "192.168.1.2", 3306, some "", some "", some "", some "",
         "unknown", "Pending..."⟩
    ∧ (mergeOne dbMemoOnly streamB).health_status = "unknown"
    ∧ (mergeOne dbMemoOnly streamB).health_msg = "Pending..." := by
  refine ⟨C5_merge_defaults.1 dbProbed [streamB] none,
          C5_merge_defaults.2.1 dbProbed streamB (by decide), ?_⟩
  exact C5_merge_defaults.2.2 dbMemoOnly streamB
    ⟨some "svc", some "", some "", some "", some "unknown", some "Pending...", none⟩
    (by decide) rfl rfl

/-- C2: with the live rule list fetched, a create request whose incoming port
is already held by some listed rule is answered with a 409 conflict and the
remote create call is never issued; an update request whose incoming port
collides with no rule other than the one being updated passes the guard — the
remote update call is issued and the response is never a conflict. -/
theorem C2_port_conflict_guard :
    (∀ (form : StreamForm) (streams : List NpmStream)
       (create : Except String NpmStream) (db : DB) (s : NpmStream),
       s ∈ streams → s.incoming_port = form.incoming_port →
       1 ≤ form.incoming_port → form.incoming_port ≤ 65535 →
       form.forward_ip ≠ "" → 1 ≤ form.forward_port → form.forward_port ≤ 65535 →
       (api_create_stream form (.ok streams) create db).remoteCalled = false
       ∧ ∃ m, (api_create_stream form (.ok streams) create db).resp = .conflict m)
    ∧ (∀ (sid : Nat) (form : StreamForm) (streams : List NpmStream)
         (upd : Except String NpmStream) (db : DB),
       (∀ s, s ∈ streams → s.incoming_port = form.incoming_port → s.id = sid) →
       1 ≤ form.incoming_port → form.incoming_port ≤ 65535 →
       form.forward_ip ≠ "" → 1 ≤ form.forward_port → form.forward_port ≤ 65535 →
       (api_update_stream sid form (.ok streams) upd db).remoteCalled = true
       ∧ ∀ m, (api_update_stream sid form (.ok streams) upd db).resp ≠ .conflict m) := by
  constructor
  · intro form streams create db s hs hp h1 h2 hip h3 h4
    have hc1 : ¬(form.incoming_port = 0 ∨ form.forward_ip = "" ∨ form.forward_port = 0) := by
      push_neg
      exact ⟨by omega, hip, by omega⟩
    have hc2 : ¬(¬(1 ≤ form.incoming_port ∧ form.incoming_port ≤ 65535) ∨
                 ¬(1 ≤ form.forward_port ∧ form.forward_port ≤ 65535)) := by
      push_neg
      exact ⟨⟨h1, h2⟩, ⟨h3, h4⟩⟩
    have hfind : (streams.find? fun x => x.incoming_port == form.incoming_port).isSome := by
      rw [List.find?_isSome]
      exact ⟨s, hs, by simp [hp]⟩
    obtain ⟨s', hs'⟩ := Option.isSome_iff_exists.mp hfind
    unfold api_create_stream
    rw [if_neg hc1, if_neg hc2]
    simp only [hs']
    simp
  · intro sid form streams upd db hself h1 h2 hip h3 h4
    have hc1 : ¬(form.incoming_port = 0 ∨ form.forward_ip = "" ∨ form.forward_port = 0) := by
      push_neg
      exact ⟨by omega, hip, by omega⟩
    have hc2 : ¬(¬(1 ≤ form.incoming_port ∧ form.incoming_port ≤ 65535) ∨
                 ¬(1 ≤ form.forward_port ∧ form.forward_port ≤ 65535)) := by
      push_neg
      exact ⟨⟨h1, h2⟩, ⟨h3, h4⟩⟩
    have hfind : (streams.find? fun x =>
        x.incoming_port == form.incoming_port && x.id != sid) = none := by
      rw [List.find?_eq_none]
      intro x hx
      simp only [Bool.and_eq_true, beq_iff_eq, bne_iff_ne, ne_eq, not_and]
      intro hpx hxid
      exact hxid (hself x hx hpx)
    unfold api_update_stream
    rw [if_neg hc1, if_neg hc2]
    simp only [hfind]
    cases upd with
    | ok v => exact ⟨rfl, by simp⟩
    | error e => exact ⟨rfl, by simp⟩

/-- A create/update form asking for incoming port 8080 — the port `streamA`
already holds. -/
def formA : StreamForm := ⟨8080, "10.0.0.5", 22, "m", "", "", ""⟩

/-- Witness for C2: creating on a taken port is a conflict with no remote
call; updating the holder itself to that same port passes the guard. -/
theorem C2_port_conflict_guard_witness :
    ((api_create_stream formA (.ok [streamA]) (.error "unused") dbProbed).remoteCalled = false
     ∧ ∃ m, (api_create_stream formA (.ok [streamA])
         (.error "unused") dbProbed).resp = .conflict m)
    ∧ ((api_update_stream 7 formA (.ok [streamA]) (.ok streamA) dbProbed).remoteCalled = true
     ∧ ∀ m, (api_update_stream 7 formA (.ok [streamA])
         (.ok streamA) dbProbed).resp ≠ .conflict m) := by
  constructor
  · exact C2_port_conflict_guard.1 formA [streamA] (.error "unused") dbProbed streamA
      (by decide) rfl (by decide) (by decide) (by decide) (by decide) (by decide)
  · refine C2_port_conflict_guard.2 7 formA [streamA] (.ok streamA) dbProbed
      ?_ (by decide) (by decide) (by decide) (by decide) (by decide)
    intro s hs hp
    rcases List.mem_singleton.mp hs with rfl
    rfl

/-- Invariant of the store: every stored row's `health_status` column is
`'unknown'` (the schema default), `'ok'` or `'error'` (the only values the
prober produces). -/
def HSValid (db : DB) : Prop :=
  ∀ id r, db id = some r →
    r.health_status = some "unknown" ∨ r.health_status = some "ok" ∨
    r.health_status = some "error"

/-- Every reachable store satisfies `HSValid`. -/
theorem reachable_hsvalid {db : DB} (h : Reachable db) : HSValid db := by
  induction h with
  | init =>
      intro id r hid
      cases hid
  | memo db' id m d t r _ ih =>
      intro j row hj
      by_cases he : j = id
      · subst he
        simp [save_memo, dbInsert] at hj
        rw [← hj]
        left
        rfl
      · exact ih j row (by simpa [save_memo, dbInsert, he] using hj)
  | probe db' id http tcp now _ ih =>
      intro j row hj
      by_cases he : j = id
      · subst he
        simp [save_health_status, dbInsert] at hj
        rcases check_status_cases http tcp with hs | hs
        · right; left
          rw [← hj]
          simp [hs]
        · right; right
          rw [← hj]
          simp [hs]
      · exact ih j row (by simpa [save_health_status, dbInsert, he] using hj)
  | del db' id _ ih =>
      intro j row hj
      by_cases he : j = id
      · subst he
        simp [delete_memo] at hj
      · exact ih j row (by simpa [delete_memo, he] using hj)

/-- C9: over every reachable store, the health status read back for the
merged view is one of exactly `ok`, `error`, `unknown`; independently of
reachability, a missing row yields the full defaults, and a NULL or empty
stored status (resp. message) is coerced to `unknown` (resp. "Pending..."). -/
theorem C9_health_status_range :
    (∀ db : DB, Reachable db → ∀ id,
       (get_health_status db id).status = "ok" ∨
       (get_health_status db id).status = "error" ∨
       (get_health_status db id).status = "unknown")
    ∧ (∀ (db : DB) (id : Nat), db id = none →
         get_health_status db id = ⟨"unknown", "Pending...", none⟩)
    ∧ (∀ (db : DB) (id : Nat) (r : Row), db id = some r →
         (r.health_status = none ∨ r.health_status = some "") →
         (get_health_status db id).status = "unknown")
    ∧ (∀ (db : DB) (id : Nat) (r : Row), db id = some r →
         (r.health_msg = none ∨ r.health_msg = some "") →
         (get_health_status db id).msg = "Pending...") := by
  refine ⟨?_, ?_, ?_, ?_⟩
  · intro db hr id
    cases hdb : db id with
    | none =>
        right; right
        simp [get_health_status, hdb]
    | some r =>
        rcases reachable_hsvalid hr id r hdb with h | h | h
        · right; right
          simp only [get_health_status, hdb, h]
          decide
        · left
          simp only [get_health_status, hdb, h]
          decide
        · right; left
          simp only [get_health_status, hdb, h]
          decide
  · intro db id h
    simp [get_health_status, h]
  · intro db id r h hnull
    rcases hnull with hn | hn <;> simp [get_health_status, h, hn, pyOr]
  · intro db id r h hnull
    rcases hnull with hn | hn <;> simp [get_health_status, h, hn, pyOr]

/-- A store built only from the application's own write operations: an
annotation save followed by a probe save whose result comes from the prober. -/
def dbReach : DB :=
  save_health_status (save_memo (fun _ => none) 1 "m" "" "" "") 1
    (check_stream_connectivity .exc (.code 0)).status
    (check_stream_connectivity .exc (.code 0)).msg 5

/-- A row whose health columns are NULL (as a hand-edited database could
hold), to exercise the coercion clauses. -/
def rowNullHealth : Row := ⟨some "x", none, none, none, none, none, none⟩

/-- A store holding that row for rule 4. -/
def dbNullHealth : DB := fun j => if j = 4 then some rowNullHealth else none

/-- Witness for C9 at concrete stores: a reachable store's status is in the
three-value range, a missing row gives the defaults, and NULL health columns
coerce to `unknown`/"Pending...". -/
theorem C9_health_status_range_witness :
    ((get_health_status dbReach 1).status = "ok" ∨
     (get_health_status dbReach 1).status = "error" ∨
     (get_health_status dbReach 1).status = "unknown")
    ∧ get_health_status dbReach 2 = ⟨"unknown", "Pending...", none⟩
    ∧ (get_health_status dbNullHealth 4).status = "unknown"
    ∧ (get_health_status dbNullHealth 4).msg = "Pending..." := by
  refine ⟨?_, ?_, ?_, ?_⟩
  · exact C9_health_status_range.1 dbReach
      (Reachable.probe _ 1 .exc (.code 0) 5
        (Reachable.memo _ 1 "m" "" "" "" Reachable.init)) 1
  · exact C9_health_status_range.2.1 dbReach 2 rfl
  · exact C9_health_status_range.2.2.1 dbNullHealth 4 rowNullHealth rfl (Or.inl rfl)
  · exact C9_health_status_range.2.2.2 dbNullHealth 4 rowNullHealth rfl (Or.inl rfl)
